import Mathlib

/-!
Verification of the interactive-qa-system chat client and relay endpoint.

The client page (`Home` / `submitMessage`), the chat input component
(`ChatInput.handleSubmit`), the API client (`createConversation`,
`deleteConversation`, `addMessages`) and the relay route handler (`POST
/api/chat`) are embedded as pure Lean functions.  React state updates become
explicit list transformations; network calls become entries of an explicit
call log; stream outcomes (fetch failure, chunks delivered, mid-stream read
failure) become an explicit `RelayResult` parameter.
-/

set_option autoImplicit false

namespace QA

/-- Client-side chat message, from the `ChatMessage` interface
(`id : string`, `role : user | assistant`, `content : string`).
The role union type is embedded as a `String` taking the values
`"user"` and `"assistant"`. -/
structure ChatMessage where
  id : String
  role : String
  content : String
deriving DecidableEq, Repr

/-- One observable backend / relay interaction made by `submitMessage`:
`createConversation` (POST /api/conversations), the relay fetch
(POST /api/chat with the updated message list as body), or
`addMessages` (POST /api/conversations/:id/messages with a list of
role/content pairs). -/
inductive ApiCall where
  | createConversation : ApiCall
  | relayRequest : List ChatMessage → ApiCall
  | addMessages : String → List (String × String) → ApiCall
deriving DecidableEq, Repr

/-- Whether a logged call is an append-messages (persistence) call. -/
def ApiCall.isAppend : ApiCall → Bool
  | ApiCall.addMessages _ _ => true
  | _ => false

/-- Whether a logged call is a create-conversation call. -/
def ApiCall.isCreate : ApiCall → Bool
  | ApiCall.createConversation => true
  | _ => false

/-- Outcome of the relay fetch, as observed by the client loop:
`fetchFail` covers the fetch itself throwing, `!response.ok` and
`!response.body` (all throw before the assistant placeholder is added);
`stream chunks midFail` means the reader delivered `chunks` (already
decoded to text) and then either a read threw (`midFail = true`) or
`done` was reached (`midFail = false`). -/
inductive RelayResult where
  | fetchFail : RelayResult
  | stream : List String → Bool → RelayResult
deriving DecidableEq, Repr

/-- Result of one `submitMessage` call: the final rendered transcript,
the log of backend/relay calls in issue order, and whether the catch
handler ran (`setError`). -/
structure SubmitResult where
  messages : List ChatMessage
  calls : List ApiCall
  isError : Bool
deriving DecidableEq, Repr

/-- The per-chunk transcript update
`prev.map (m => m.id === assistantId ? { ...m, content: assistantContent } : m)`
from the streaming loop of `submitMessage`. -/
def applyChunkUpdate (assistantId content : String) (msgs : List ChatMessage) :
    List ChatMessage :=
  msgs.map fun m => if m.id = assistantId then { m with content := content } else m

/-- The streaming `while` loop of `submitMessage`: for each decoded chunk,
append it to the accumulator and rewrite the transcript entry whose id is
`assistantId` to the new accumulator.  Returns the transcript after the
last chunk and the final accumulated assistant text. -/
def streamLoop (msgs : List ChatMessage) (assistantId acc : String) :
    List String → List ChatMessage × String
  | [] => (msgs, acc)
  | chunk :: rest =>
      let acc2 := acc ++ chunk
      streamLoop (applyChunkUpdate assistantId acc2 msgs) assistantId acc2 rest

/-- In-order concatenation of a chunk list. -/
def concatChunks : List String → String
  | [] => ""
  | c :: rest => c ++ concatChunks rest

/-- The catch handler's transcript cleanup
`setMessages(prev => prev.filter(m => m.content !== ''))`. -/
def discardEmpty (msgs : List ChatMessage) : List ChatMessage :=
  msgs.filter fun m => m.content != ""

/-- The client's `submitMessage` from the Home page, with React state and
I/O made explicit:

* `msgs0` — the `messages` state when the call starts;
* `message` — the submitted user text;
* `currentConversationId`, `backendAvailable` — the captured state values
  (constant during one call);
* `createResult` — what `createConversation` returns if it is called
  (`Except.error` models it throwing: the error is caught and `convId`
  stays null);
* `userId` / `assistantId` — the `Date.now()`-derived ids of the new user
  message and the assistant placeholder;
* `relay` — the observed relay outcome;
* `persistOk` — whether the `addMessages` call, if issued, resolves
  (`false` models it throwing into the same catch handler).

Steps mirror the source: optionally create a conversation, append the user
message, fetch the relay, stream chunks into the assistant placeholder,
then on normal completion persist the pair when `convId && backendAvailable`;
any throw lands in the catch which filters out empty-content messages. -/
def submitMessage (msgs0 : List ChatMessage) (message : String)
    (currentConversationId : Option String) (backendAvailable : Bool)
    (createResult : Except Unit String) (userId assistantId : String)
    (relay : RelayResult) (persistOk : Bool) : SubmitResult :=
  let step1 : Option String × List ApiCall :=
    match currentConversationId, backendAvailable with
    | none, true =>
        match createResult with
        | Except.ok newId => (some newId, [ApiCall.createConversation])
        | Except.error _ => (none, [ApiCall.createConversation])
    | some cid, _ => (some cid, [])
    | none, false => (none, [])
  let convId := step1.1
  let calls0 := step1.2
  let userMessage : ChatMessage := ⟨userId, "user", message⟩
  let updatedMessages := msgs0 ++ [userMessage]
  match relay with
  | RelayResult.fetchFail =>
      { messages := discardEmpty updatedMessages
        calls := calls0 ++ [ApiCall.relayRequest updatedMessages]
        isError := true }
  | RelayResult.stream chunks midFail =>
      let withAssistant := updatedMessages ++ [⟨assistantId, "assistant", ""⟩]
      let streamed := streamLoop withAssistant assistantId "" chunks
      let assistantContent := streamed.2
      let callsR := calls0 ++ [ApiCall.relayRequest updatedMessages]
      if midFail then
        { messages := discardEmpty streamed.1
          calls := callsR
          isError := true }
      else
        match convId, backendAvailable with
        | some cid, true =>
            let persistCall := ApiCall.addMessages cid
              [("user", message), ("assistant", assistantContent)]
            if persistOk then
              { messages := streamed.1
                calls := callsR ++ [persistCall]
                isError := false }
            else
              { messages := discardEmpty streamed.1
                calls := callsR ++ [persistCall]
                isError := true }
        | _, _ =>
            { messages := streamed.1
              calls := callsR
              isError := false }

/-! ### Lemmas about the streaming loop -/

theorem applyChunkUpdate_append (base : List ChatMessage) (aid role acc c : String)
    (hfresh : ∀ m ∈ base, m.id ≠ aid) :
    applyChunkUpdate aid c (base ++ [⟨aid, role, acc⟩]) = base ++ [⟨aid, role, c⟩] := by
  unfold applyChunkUpdate
  rw [List.map_append]
  congr 1
  · induction base with
    | nil => rfl
    | cons m rest ih =>
        simp only [List.map_cons]
        rw [if_neg (hfresh m (by simp))]
        rw [ih (fun x hx => hfresh x (by simp [hx]))]
  · simp

theorem streamLoop_eq (base : List ChatMessage) (aid role : String)
    (chunks : List String) (acc : String)
    (hfresh : ∀ m ∈ base, m.id ≠ aid) :
    streamLoop (base ++ [⟨aid, role, acc⟩]) aid acc chunks =
      (base ++ [⟨aid, role, acc ++ concatChunks chunks⟩], acc ++ concatChunks chunks) := by
  induction chunks generalizing acc with
  | nil => simp [streamLoop, concatChunks]
  | cons c rest ih =>
      simp only [streamLoop]
      rw [applyChunkUpdate_append base aid role acc (acc ++ c) hfresh]
      rw [ih (acc ++ c)]
      simp [concatChunks, String.append_assoc]

/-- C4: the client appends each decoded chunk to the single growing assistant
buffer in arrival order; after the loop, the transcript entry created for the
stream carries exactly the in-order concatenation of all chunks, and the
returned accumulator equals that concatenation as well (the placeholder
starts empty, so two chunks "Hi " then "there" end as "Hi there" — see the
witness). -/
theorem c4_stream_accumulates (base : List ChatMessage) (assistantId : String)
    (chunks : List String) (hfresh : ∀ m ∈ base, m.id ≠ assistantId) :
    streamLoop (base ++ [⟨assistantId, "assistant", ""⟩]) assistantId "" chunks =
      (base ++ [⟨assistantId, "assistant", concatChunks chunks⟩],
        concatChunks chunks) := by
  have h := streamLoop_eq base assistantId "assistant" chunks "" hfresh
  simpa [String.empty_append] using h

/-- Witness for C4 at the spec scenario: user "Hello", reply streamed as
"Hi " then "there", rendering exactly "Hi there". -/
theorem c4_stream_accumulates_witness :
    streamLoop ([⟨"1", "user", "Hello"⟩] ++ [⟨"2", "assistant", ""⟩]) "2" ""
        ["Hi ", "there"] =
      ([⟨"1", "user", "Hello"⟩] ++ [⟨"2", "assistant", concatChunks ["Hi ", "there"]⟩],
        concatChunks ["Hi ", "there"]) ∧
    concatChunks ["Hi ", "there"] = "Hi there" :=
  ⟨c4_stream_accumulates [⟨"1", "user", "Hello"⟩] "2" ["Hi ", "there"] (by decide),
   by decide⟩

/-- C8: a chunk update rewrites only the entry whose id equals the streaming
assistant id — the transcript keeps its length (hence the number and relative
order of messages), every entry at an index whose id differs is wholly
unchanged, and the matching entry keeps its id and role while only its
content becomes the new accumulator. -/
theorem c8_chunk_update_frame (assistantId content : String)
    (msgs : List ChatMessage) :
    (applyChunkUpdate assistantId content msgs).length = msgs.length ∧
    (∀ (i : Nat) (m : ChatMessage), msgs[i]? = some m → m.id ≠ assistantId →
        (applyChunkUpdate assistantId content msgs)[i]? = some m) ∧
    (∀ (i : Nat) (m : ChatMessage), msgs[i]? = some m → m.id = assistantId →
        (applyChunkUpdate assistantId content msgs)[i]? =
          some ⟨m.id, m.role, content⟩) := by
  refine ⟨by simp [applyChunkUpdate], ?_, ?_⟩
  · intro i m hm hne
    rw [applyChunkUpdate, List.getElem?_map, hm]
    simp [hne]
  · intro i m hm heq
    rw [applyChunkUpdate, List.getElem?_map, hm]
    simp [heq]

/-- Witness for C8: updating the stream entry "2" to "Hi" leaves the user
message at index 0 untouched and only changes the content at index 1. -/
theorem c8_chunk_update_frame_witness :
    (applyChunkUpdate "2" "Hi" [⟨"1", "user", "Hello"⟩, ⟨"2", "assistant", ""⟩])[0]? =
        some ⟨"1", "user", "Hello"⟩ ∧
    (applyChunkUpdate "2" "Hi" [⟨"1", "user", "Hello"⟩, ⟨"2", "assistant", ""⟩])[1]? =
        some ⟨"2", "assistant", "Hi"⟩ := by
  have h := c8_chunk_update_frame "2" "Hi"
    [⟨"1", "user", "Hello"⟩, ⟨"2", "assistant", ""⟩]
  exact ⟨h.2.1 0 ⟨"1", "user", "Hello"⟩ (by decide) (by decide),
         h.2.2 1 ⟨"2", "assistant", ""⟩ (by decide) (by decide)⟩

theorem submit_fresh_append (msgs0 : List ChatMessage) (userId message assistantId : String)
    (hfresh : ∀ m ∈ msgs0, m.id ≠ assistantId) (huid : userId ≠ assistantId) :
    ∀ m ∈ msgs0 ++ [(⟨userId, "user", message⟩ : ChatMessage)], m.id ≠ assistantId := by
  intro m hm
  rcases List.mem_append.mp hm with h | h
  · exact hfresh m h
  · simp only [List.mem_singleton] at h
    subst h
    simpa using huid

/-- C2: a submission with an existing conversation id, an available backend
and a normally completing stream issues exactly one append-messages call, and
that call carries the user/assistant pair with the submitted text and the
full in-order concatenation of the streamed chunks (whether or not the
append call itself later resolves). -/
theorem c2_single_append_on_completion (msgs0 : List ChatMessage)
    (message cid : String) (createResult : Except Unit String)
    (userId assistantId : String) (chunks : List String) (persistOk : Bool)
    (hfresh : ∀ m ∈ msgs0, m.id ≠ assistantId) (huid : userId ≠ assistantId) :
    (submitMessage msgs0 message (some cid) true createResult userId assistantId
        (RelayResult.stream chunks false) persistOk).calls.filter ApiCall.isAppend =
      [ApiCall.addMessages cid
        [("user", message), ("assistant", concatChunks chunks)]] := by
  have hstream := streamLoop_eq (msgs0 ++ [⟨userId, "user", message⟩]) assistantId
    "assistant" chunks ""
    (submit_fresh_append msgs0 userId message assistantId hfresh huid)
  unfold submitMessage
  simp only [hstream, String.empty_append]
  cases persistOk <;> simp [ApiCall.isAppend, List.filter_append]

/-- Witness for C2: one append call with the pair ("Hello", "Hi there"). -/
theorem c2_single_append_on_completion_witness :
    (submitMessage [] "Hello" (some "c1") true (Except.ok "n") "1" "2"
        (RelayResult.stream ["Hi ", "there"] false) true).calls.filter
          ApiCall.isAppend =
      [ApiCall.addMessages "c1"
        [("user", "Hello"), ("assistant", concatChunks ["Hi ", "there"])]] :=
  c2_single_append_on_completion [] "Hello" "c1" (Except.ok "n") "1" "2"
    ["Hi ", "there"] true (by decide) (by decide)

/-- C6: with the backend marked unavailable, a submission still issues the
relay request and renders the full streamed reply, and the call log contains
no create-conversation and no append-messages call — exactly the one relay
request. -/
theorem c6_outage_still_streams (msgs0 : List ChatMessage) (message : String)
    (cid : Option String) (createResult : Except Unit String)
    (userId assistantId : String) (chunks : List String) (persistOk : Bool)
    (hfresh : ∀ m ∈ msgs0, m.id ≠ assistantId) (huid : userId ≠ assistantId) :
    (submitMessage msgs0 message cid false createResult userId assistantId
        (RelayResult.stream chunks false) persistOk).calls =
      [ApiCall.relayRequest (msgs0 ++ [⟨userId, "user", message⟩])] ∧
    (submitMessage msgs0 message cid false createResult userId assistantId
        (RelayResult.stream chunks false) persistOk).messages =
      msgs0 ++ [⟨userId, "user", message⟩,
        ⟨assistantId, "assistant", concatChunks chunks⟩] := by
  have hstream := streamLoop_eq (msgs0 ++ [⟨userId, "user", message⟩]) assistantId
    "assistant" chunks ""
    (submit_fresh_append msgs0 userId message assistantId hfresh huid)
  simp only [List.append_assoc, List.singleton_append] at hstream
  unfold submitMessage
  cases cid <;> simp [hstream, String.empty_append]

/-- Witness for C6: backend down, the reply "Hi there" still streams and the
only logged call is the relay request. -/
theorem c6_outage_still_streams_witness :
    (submitMessage [] "Hello" none false (Except.ok "n") "1" "2"
        (RelayResult.stream ["Hi ", "there"] false) true).calls =
      [ApiCall.relayRequest ([] ++ [⟨"1", "user", "Hello"⟩])] ∧
    (submitMessage [] "Hello" none false (Except.ok "n") "1" "2"
        (RelayResult.stream ["Hi ", "there"] false) true).messages =
      [] ++ [⟨"1", "user", "Hello"⟩, ⟨"2", "assistant", concatChunks ["Hi ", "there"]⟩] :=
  c6_outage_still_streams [] "Hello" none (Except.ok "n") "1" "2"
    ["Hi ", "there"] true (by decide) (by decide)

/-- C1 counterexample: for the submission of "Hello" whose stream delivers the
chunk "Hi " and then fails, the partially accumulated assistant message stays
in the final transcript with content "Hi " (the catch handler only filters
out empty-content entries), so partial assistant content does remain visible,
refuting the claim as stated; no append-messages call is made. -/
theorem c1_counterexample :
    (submitMessage [] "Hello" (some "c1") true (Except.ok "n") "1" "2"
        (RelayResult.stream ["Hi "] true) true).messages =
      [⟨"1", "user", "Hello"⟩, ⟨"2", "assistant", "Hi "⟩] ∧
    (submitMessage [] "Hello" (some "c1") true (Except.ok "n") "1" "2"
        (RelayResult.stream ["Hi "] true) true).calls.filter ApiCall.isAppend =
      [] := by
  decide

/-- C1 (amended): on a relay failure — the fetch throwing or a chunk read
throwing mid-stream — no append-messages call is made, and the final
transcript is the accumulated transcript with exactly the empty-content
entries removed: the assistant placeholder disappears only when no text had
accumulated, while a partially accumulated non-empty assistant message
remains visible. -/
theorem c1_failure_discards_empty_only (msgs0 : List ChatMessage)
    (message : String) (cid : Option String) (backendAvailable : Bool)
    (createResult : Except Unit String) (userId assistantId : String)
    (chunks : List String) (persistOk : Bool)
    (hfresh : ∀ m ∈ msgs0, m.id ≠ assistantId) (huid : userId ≠ assistantId) :
    (submitMessage msgs0 message cid backendAvailable createResult userId
        assistantId (RelayResult.stream chunks true) persistOk).calls.filter
          ApiCall.isAppend = [] ∧
    (submitMessage msgs0 message cid backendAvailable createResult userId
        assistantId (RelayResult.stream chunks true) persistOk).messages =
      discardEmpty (msgs0 ++ [⟨userId, "user", message⟩,
        ⟨assistantId, "assistant", concatChunks chunks⟩]) ∧
    (submitMessage msgs0 message cid backendAvailable createResult userId
        assistantId RelayResult.fetchFail persistOk).calls.filter
          ApiCall.isAppend = [] ∧
    (submitMessage msgs0 message cid backendAvailable createResult userId
        assistantId RelayResult.fetchFail persistOk).messages =
      discardEmpty (msgs0 ++ [⟨userId, "user", message⟩]) := by
  have hstream := streamLoop_eq (msgs0 ++ [⟨userId, "user", message⟩]) assistantId
    "assistant" chunks ""
    (submit_fresh_append msgs0 userId message assistantId hfresh huid)
  simp only [List.append_assoc, List.singleton_append] at hstream
  unfold submitMessage
  refine ⟨?_, ?_, ?_, ?_⟩
  · cases cid <;> cases backendAvailable <;> cases createResult <;> rfl
  · cases cid <;> cases backendAvailable <;> cases createResult <;>
      simp [hstream, String.empty_append]
  · cases cid <;> cases backendAvailable <;> cases createResult <;> rfl
  · cases cid <;> cases backendAvailable <;> cases createResult <;> simp

/-- Witness for C1 (amended): backend up, conversation "c1", stream fails
after "Hi " — no append call; the non-empty user and assistant entries both
survive the empty-content filter. -/
theorem c1_failure_discards_empty_only_witness :
    (submitMessage [] "Hello" (some "c1") true (Except.ok "n") "1" "2"
        (RelayResult.stream ["Hi "] true) true).calls.filter ApiCall.isAppend =
      [] ∧
    (submitMessage [] "Hello" (some "c1") true (Except.ok "n") "1" "2"
        (RelayResult.stream ["Hi "] true) true).messages =
      discardEmpty ([] ++ [⟨"1", "user", "Hello"⟩,
        ⟨"2", "assistant", concatChunks ["Hi "]⟩]) ∧
    (submitMessage [] "Hello" (some "c1") true (Except.ok "n") "1" "2"
        RelayResult.fetchFail true).calls.filter ApiCall.isAppend = [] ∧
    (submitMessage [] "Hello" (some "c1") true (Except.ok "n") "1" "2"
        RelayResult.fetchFail true).messages =
      discardEmpty ([] ++ [⟨"1", "user", "Hello"⟩]) :=
  c1_failure_discards_empty_only [] "Hello" (some "c1") true (Except.ok "n")
    "1" "2" ["Hi "] true (by decide) (by decide)

/-! ### The chat relay route handler (`POST /api/chat`) -/

/-- The fixed Cloud Advisor system instruction (`SYSTEM_PROMPT`). -/
def SYSTEM_PROMPT : String := "You are a knowledgeable and friendly Cloud Advisor specializing in Google Cloud Platform (GCP) and Google Workspace solutions.\n\nYour expertise includes:\n- Google Cloud Platform services (Compute Engine, Cloud Storage, BigQuery, Cloud Run, Kubernetes Engine, etc.)\n- Google Workspace products (Gmail, Drive, Docs, Sheets, Meet, Admin Console)\n- Cloud migration strategies and best practices\n- Infrastructure modernization and optimization\n- Cloud security and compliance\n- Cost optimization and billing management\n- DevOps practices and CI/CD pipelines\n- Data analytics and machine learning on GCP\n\nGuidelines for your responses:\n1. Provide clear, accurate, and actionable advice\n2. Break down complex concepts into understandable explanations\n3. Include relevant examples when helpful\n4. Mention specific Google Cloud products or services when applicable\n5. Offer step-by-step guidance for implementation questions\n6. Highlight best practices and potential pitfalls\n7. Be honest about limitations or when a question is outside your expertise\n8. Keep responses concise but comprehensive\n\nWhen users ask about:\n- Pricing: Direct them to Google Cloud\x27s pricing calculator and mention that costs vary by usage\n- Certifications: Provide information about Google Cloud certification paths\n- Comparisons: Give balanced comparisons with other cloud providers when asked\n- Security: Emphasize Google Cloud\x27s security features and compliance certifications\n\nRemember: You\x27re helping businesses and individuals make informed decisions about cloud technology. Be professional, helpful, and encouraging."

/-- A role/content message as relayed to the hosted model. -/
structure RelayMsg where
  role : String
  content : String
deriving DecidableEq, Repr

/-- The POST /api/chat request body as the handler observes it after
`await req.json()` and the destructuring `const { messages } = ...`:

* `notJson` — the body fails to parse (`req.json()` rejects inside the
  handler's try block);
* `jsonNull` — the body is the JSON literal `null` (destructuring `null`
  throws a TypeError, also inside the try block);
* `jsonNoMessages` — valid JSON whose `messages` field is missing or
  otherwise falsy (fails the `!messages` check);
* `jsonMessagesNotArray` — a truthy `messages` failing `Array.isArray`;
* `jsonMessages msgs` — `messages` is an array. -/
inductive ChatReqBody where
  | notJson : ChatReqBody
  | jsonNull : ChatReqBody
  | jsonNoMessages : ChatReqBody
  | jsonMessagesNotArray : ChatReqBody
  | jsonMessages : List RelayMsg → ChatReqBody
deriving DecidableEq, Repr

/-- Outcome of the `streamText` call against the hosted model, as the
handler's try/catch observes it: a stream of text chunks, or a thrown
`Error` whose message does (`errApiKey`) or does not (`errOther`) contain
the substring "API key". -/
inductive UpstreamResult where
  | ok : List String → UpstreamResult
  | errApiKey : UpstreamResult
  | errOther : UpstreamResult
deriving DecidableEq, Repr

/-- A relay response body: a JSON `{error: string}` object, or the raw
streamed text (not JSON-framed). -/
inductive ChatRespBody where
  | jsonError : String → ChatRespBody
  | textStream : List String → ChatRespBody
deriving DecidableEq, Repr

/-- A relay response: HTTP status plus body. -/
structure ChatResp where
  status : Nat
  body : ChatRespBody
deriving DecidableEq, Repr

/-- The arguments handed to `streamText`: the fixed model name, the fixed
system instruction, and the caller's message list.  (The constant sampling
option `temperature: 0.7` is a float with no bearing on any claim and is
not modelled.) -/
structure ForwardedRequest where
  model : String
  system : String
  messages : List RelayMsg
deriving DecidableEq, Repr

/-- The `POST /api/chat` route handler.  Mirrors the source: parse the body
(a parse rejection or a `null` destructuring lands in the catch → generic
500); validate `!messages || !Array.isArray(messages)` → 400; otherwise
call `streamText` and return its text-stream response, with thrown upstream
errors mapped in the catch to 500 (a dedicated message when the error text
contains "API key").  Also returns the request forwarded to the model
(`none` when `streamText` is never reached). -/
def chatPOST (body : ChatReqBody) (upstream : UpstreamResult) :
    ChatResp × Option ForwardedRequest :=
  match body with
  | ChatReqBody.notJson =>
      (⟨500, ChatRespBody.jsonError "An error occurred while processing your request."⟩,
        none)
  | ChatReqBody.jsonNull =>
      (⟨500, ChatRespBody.jsonError "An error occurred while processing your request."⟩,
        none)
  | ChatReqBody.jsonNoMessages =>
      (⟨400, ChatRespBody.jsonError "Invalid request: messages array required"⟩, none)
  | ChatReqBody.jsonMessagesNotArray =>
      (⟨400, ChatRespBody.jsonError "Invalid request: messages array required"⟩, none)
  | ChatReqBody.jsonMessages msgs =>
      let fwd : ForwardedRequest := ⟨"gemini-2.5-flash", SYSTEM_PROMPT, msgs⟩
      match upstream with
      | UpstreamResult.ok chunks =>
          (⟨200, ChatRespBody.textStream chunks⟩, some fwd)
      | UpstreamResult.errApiKey =>
          (⟨500, ChatRespBody.jsonError
            "API key configuration error. Please check your GEMINI_API_KEY."⟩, some fwd)
      | UpstreamResult.errOther =>
          (⟨500, ChatRespBody.jsonError "An error occurred while processing your request."⟩,
            some fwd)

/-- A client-error (4xx) status. -/
def is4xx (s : Nat) : Prop := 400 ≤ s ∧ s < 500

instance (s : Nat) : Decidable (is4xx s) := by unfold is4xx; infer_instance

/-- C3 counterexample: a request whose body is not valid JSON is answered
with status 500 — the parse rejection is thrown inside the try block and
lands in the generic catch — not with the 4xx the claim requires for
malformed input. -/
theorem c3_counterexample :
    (chatPOST ChatReqBody.notJson (UpstreamResult.ok [])).1.status = 500 ∧
    ¬ is4xx (chatPOST ChatReqBody.notJson (UpstreamResult.ok [])).1.status := by
  decide

/-- C3 (amended): a missing/falsy or non-array `messages` field gets a 400
with a JSON error body; a body that is not valid JSON — or the JSON literal
null, whose destructuring throws — falls into the generic catch and gets a
500 with a JSON error body; with `messages` an array, a thrown upstream or
configuration error yields a 500 with a JSON error body, and otherwise the
response is 200 carrying the raw streamed text, not JSON-framed. -/
theorem c3_status_and_body_map :
    (∀ u, (chatPOST ChatReqBody.notJson u).1 =
      ⟨500, ChatRespBody.jsonError "An error occurred while processing your request."⟩) ∧
    (∀ u, (chatPOST ChatReqBody.jsonNull u).1 =
      ⟨500, ChatRespBody.jsonError "An error occurred while processing your request."⟩) ∧
    (∀ u, (chatPOST ChatReqBody.jsonNoMessages u).1 =
      ⟨400, ChatRespBody.jsonError "Invalid request: messages array required"⟩) ∧
    (∀ u, (chatPOST ChatReqBody.jsonMessagesNotArray u).1 =
      ⟨400, ChatRespBody.jsonError "Invalid request: messages array required"⟩) ∧
    (∀ msgs chunks, (chatPOST (ChatReqBody.jsonMessages msgs) (UpstreamResult.ok chunks)).1 =
      ⟨200, ChatRespBody.textStream chunks⟩) ∧
    (∀ msgs, (chatPOST (ChatReqBody.jsonMessages msgs) UpstreamResult.errApiKey).1 =
      ⟨500, ChatRespBody.jsonError
        "API key configuration error. Please check your GEMINI_API_KEY."⟩) ∧
    (∀ msgs, (chatPOST (ChatReqBody.jsonMessages msgs) UpstreamResult.errOther).1 =
      ⟨500, ChatRespBody.jsonError "An error occurred while processing your request."⟩) :=
  ⟨fun _ => rfl, fun _ => rfl, fun _ => rfl, fun _ => rfl,
   fun _ _ => rfl, fun _ => rfl, fun _ => rfl⟩

/-- C5: whenever `messages` is an array, the request handed to the hosted
model consists of the fixed model name, the one fixed system instruction,
and exactly the input message list — unmodified and in its original order —
whatever the upstream outcome. -/
theorem c5_forward_preserves_messages (msgs : List RelayMsg) (u : UpstreamResult) :
    (chatPOST (ChatReqBody.jsonMessages msgs) u).2 =
      some ⟨"gemini-2.5-flash", SYSTEM_PROMPT, msgs⟩ := by
  cases u <;> rfl

/-! ### The chat input component and the API client -/

/-- JS `String.prototype.trim()`: strip leading and trailing whitespace
(embedded over the whitespace characters `Char.isWhitespace` recognises). -/
def jsTrim (s : String) : String :=
  ⟨((s.data.dropWhile Char.isWhitespace).reverse.dropWhile Char.isWhitespace).reverse⟩

/-- `ChatInput.handleSubmit`: trim the input; only when the trimmed string
is truthy (non-empty) and `isLoading` is false is `onSubmit(trimmedInput)`
invoked — returned here as `some trimmedInput`, with `none` for the
no-submission path. -/
def handleSubmit (input : String) (isLoading : Bool) : Option String :=
  let trimmedInput := jsTrim input
  if trimmedInput = "" then none
  else if isLoading then none
  else some trimmedInput

/-- C9: every message `handleSubmit` hands to `onSubmit` is exactly the
whitespace-trimmed input, is non-empty, and is produced only while
`isLoading` is false — so no submission starts while a stream is in
flight. -/
theorem c9_submit_trimmed_nonempty (input : String) (isLoading : Bool)
    (s : String) (h : handleSubmit input isLoading = some s) :
    s = jsTrim input ∧ s ≠ "" ∧ isLoading = false := by
  unfold handleSubmit at h
  by_cases h1 : jsTrim input = ""
  · rw [if_pos h1] at h
    exact absurd h (by simp)
  · rw [if_neg h1] at h
    cases hl : isLoading
    · rw [hl, if_neg (by simp)] at h
      obtain rfl : jsTrim input = s := Option.some.inj h
      exact ⟨rfl, h1, rfl⟩
    · rw [hl, if_pos rfl] at h
      exact absurd h (by simp)

/-- Witness for C9: submitting " hi " while not loading yields the trimmed,
non-empty "hi". -/
theorem c9_submit_trimmed_nonempty_witness :
    "hi" = jsTrim " hi " ∧ "hi" ≠ "" ∧ (false : Bool) = false :=
  c9_submit_trimmed_nonempty " hi " false "hi" (by decide)

/-- The client's `createConversation`: the request body is
`JSON.stringify({ title: title || null })`.  This is the `title` field of
that body, with the argument `none` standing for an omitted (`undefined`)
`title?` and the result `none` standing for JSON null.  The only falsy
JS string is `""`. -/
def createConversationBody (title : Option String) : Option String :=
  match title with
  | none => none
  | some t => if t = "" then none else some t

/-- C10: the create-conversation body carries `title: null` both when the
argument is omitted and when it is the empty string, and carries a
non-empty title unchanged. -/
theorem c10_title_falsy_to_null :
    createConversationBody none = none ∧
    createConversationBody (some "") = none ∧
    ∀ t : String, t ≠ "" → createConversationBody (some t) = some t := by
  refine ⟨rfl, rfl, fun t ht => ?_⟩
  simp [createConversationBody, ht]

/-- Witness for C10: a non-empty title is sent unchanged. -/
theorem c10_title_falsy_to_null_witness :
    createConversationBody (some "My chat") = some "My chat" :=
  c10_title_falsy_to_null.2.2 "My chat" (by decide)

/-! ### The conversation store (spec-modelled)

The FastAPI/SQLModel backend (`backend/app`) is not among the provided
sources — only its client wrappers are — so the store and its
GET/DELETE endpoints are modelled from the spec below. -/

/-- Modelled from the spec: a persisted conversation row (spec §3 —
opaque unique string identifier, optional title, creation and last-updated
timestamps). -/
structure StoredConversation where
  id : String
  title : Option String
  created_at : Nat
  updated_at : Nat
deriving DecidableEq, Repr

/-- Modelled from the spec: a persisted message row (spec §3 — sequence
number unique within the store, owning conversation reference, role, text
content, creation timestamp). -/
structure StoredMessage where
  id : Nat
  conversation_id : String
  role : String
  content : String
  created_at : Nat
deriving DecidableEq, Repr

/-- Modelled from the spec: the row store holding both tables (spec §3:
the store exclusively owns durable state). -/
structure Store where
  conversations : List StoredConversation
  messages : List StoredMessage
deriving DecidableEq, Repr

/-- Modelled from the spec: the not-found failure mode for an unknown
conversation id (spec §4.1, §7(b)). -/
inductive ApiFailure where
  | notFound : ApiFailure
deriving DecidableEq, Repr

def findConv (s : Store) (id : String) : Option StoredConversation :=
  s.conversations.find? fun c => c.id == id

/-- The messages belonging to conversation `id` (reachable only through
their owning conversation: spec §3 foreign-key-style integrity, §6). -/
def messagesOf (s : Store) (id : String) : List StoredMessage :=
  s.messages.filter fun m => m.conversation_id == id

/-- Modelled from the spec: `GET /api/conversations/id` → the conversation
plus its messages, or not-found (spec §6). -/
def getConversationApi (s : Store) (id : String) :
    Except ApiFailure (StoredConversation × List StoredMessage) :=
  match findConv s id with
  | some c => Except.ok (c, messagesOf s id)
  | none => Except.error ApiFailure.notFound

/-- Modelled from the spec: `DELETE /api/conversations/id` → removes the
conversation and cascades deletion to its messages, or not-found
(spec §3, §6). -/
def deleteConversationApi (s : Store) (id : String) : Except ApiFailure Store :=
  match findConv s id with
  | some _ =>
      Except.ok ⟨s.conversations.filter (fun c => !(c.id == id)),
        s.messages.filter fun m => !(m.conversation_id == id)⟩
  | none => Except.error ApiFailure.notFound

/-- C7 (spec-modelled): after a successful DELETE of a conversation, a GET
on the same id answers not-found, the id owns no messages any more, and
every message that previously belonged to it is gone from the store. -/
theorem c7_delete_then_get_not_found (s : Store) (id : String) (s2 : Store)
    (h : deleteConversationApi s id = Except.ok s2) :
    getConversationApi s2 id = Except.error ApiFailure.notFound ∧
    messagesOf s2 id = [] ∧
    ∀ m ∈ s.messages, m.conversation_id = id → m ∉ s2.messages := by
  unfold deleteConversationApi at h
  cases hf : findConv s id with
  | none => rw [hf] at h; exact absurd h (by simp)
  | some c =>
      rw [hf] at h
      obtain rfl : (⟨s.conversations.filter (fun c => !(c.id == id)),
          s.messages.filter fun m => !(m.conversation_id == id)⟩ : Store) = s2 :=
        Except.ok.inj h
      refine ⟨?_, ?_, ?_⟩
      · unfold getConversationApi findConv
        rw [List.find?_eq_none.mpr]
        intro x hx
        have := (List.mem_filter.mp hx).2
        simpa using this
      · unfold messagesOf
        rw [List.filter_filter]
        rw [List.filter_eq_nil_iff]
        intro m _
        simp
      · intro m _ hmid hmem
        have := (List.mem_filter.mp hmem).2
        simp [hmid] at this

/-- Witness for C7: deleting the lone conversation "c1" empties both
tables; its id then resolves to not-found and its two messages are gone. -/
theorem c7_delete_then_get_not_found_witness :
    getConversationApi ⟨[], []⟩ "c1" = Except.error ApiFailure.notFound ∧
    messagesOf ⟨[], []⟩ "c1" = [] :=
  ⟨(c7_delete_then_get_not_found
      ⟨[⟨"c1", none, 0, 0⟩],
        [⟨1, "c1", "user", "Hello", 0⟩, ⟨2, "c1", "assistant", "Hi there", 0⟩]⟩
      "c1" ⟨[], []⟩ (by rfl)).1,
   (c7_delete_then_get_not_found
      ⟨[⟨"c1", none, 0, 0⟩],
        [⟨1, "c1", "user", "Hello", 0⟩, ⟨2, "c1", "assistant", "Hi there", 0⟩]⟩
      "c1" ⟨[], []⟩ (by rfl)).2.1⟩

end QA
